import Mathlib

/-
  Verification development for the octant traceflow plugin
  (src/cmd/traceflow-plugin/main.go).

  The plugin handlers (actionHandler, traceflowHandler, getTfRows) are
  embedded as pure Lean functions. The external cluster-state store (the
  generated antrea clientset, which is repository code not present under
  src/) is modelled from the spec as an explicit Store value threaded
  through the handlers, and every store call the handler issues is
  recorded so that the effect claims can be stated.
-/

namespace OctantPlugin

/-- Plugin and action name constants from the var block of main.go. -/
def pluginName : String := "traceflowPlugin"

/-- Action identifier for submitting a new traceflow (main.go var addTfAction). -/
def addTfAction : String := "traceflowPlugin/addTf"

/-- Action identifier for generating the trace graph (main.go var showGraphAction). -/
def showGraphAction : String := "traceflowPlugin/showGraphAction"

/-- Column title constants from the const block of main.go. -/
def tfNameCol : String := "Trace"

/-- Source namespace column title. -/
def srcNamespaceCol : String := "Source Namespace"

/-- Source pod column title. -/
def srcPodCol : String := "Source Pod"

/-- Destination namespace column title. -/
def dstNamespaceCol : String := "Destination Namespace"

/-- Destination pod column title. -/
def dstPodCol : String := "Destination Pod"

/-- Detailed information column title. -/
def crdCol : String := "Detailed Information"

/-- Modelled from the spec: the packet field of a Traceflow resource. Its type
lives in the antrea API package, repository code that is not under src; the
plugin only ever uses its zero value, so it is modelled as a record whose
default instance is that zero value. -/
structure Packet where
  raw : List String := []
deriving DecidableEq

/-- Modelled from the spec: the status field of a Traceflow resource, populated
only by the external cluster system; the plugin only ever uses its zero value. -/
structure Status where
  raw : List String := []
deriving DecidableEq

/-- The Traceflow custom resource as constructed and consumed by main.go: the
identifying name (ObjectMeta.Name) together with the spec fields the plugin
sets or reads. -/
structure Traceflow where
  name : String
  srcNamespace : String
  srcPod : String
  dstNamespace : String
  dstPod : String
  dstService : String
  roundID : String
  packet : Packet
  status : Status
deriving DecidableEq

/-- Modelled from the spec: the external cluster-state store (section 6) holding
the Traceflow resources in creation order, with a reachability flag standing
for whether communication with the store currently succeeds. -/
structure Store where
  items : List Traceflow
  reachable : Bool
deriving DecidableEq

/-- The error kinds of the external store, from section 7 of the spec. -/
inductive StoreError
  | conflict
  | notFound
  | transport
deriving DecidableEq

/-- Modelled from the spec: create on the external store. An unreachable store
yields TransportError, a duplicate name yields ConflictError, and otherwise
the resource is appended and the created resource, carrying its identity, is
returned. -/
def Store.create (s : Store) (tf : Traceflow) : Except StoreError Traceflow × Store :=
  if s.reachable = false then (.error .transport, s)
  else if s.items.any (fun t => t.name == tf.name) then (.error .conflict, s)
  else (.ok tf, { s with items := s.items ++ [tf] })

/-- Modelled from the spec: get on the external store, an exact name match.
An unreachable store yields TransportError; an absent name yields NotFoundError. -/
def Store.get (s : Store) (name : String) : Except StoreError Traceflow :=
  if s.reachable = false then .error .transport
  else
    match s.items.find? (fun t => t.name == name) with
    | some tf => .ok tf
    | none => .error .notFound

/-- Modelled from the spec: list on the external store, all items in store order
on success, TransportError when the store is unreachable. -/
def Store.list (s : Store) : Except StoreError (List Traceflow) :=
  if s.reachable = false then .error .transport else .ok s.items

/-- A call issued by the plugin against the external store, recorded so that the
side-effect claims can be stated. -/
inductive StoreCall
  | create (tf : Traceflow)
  | get (name : String)
  | list
deriving DecidableEq

/-- The plugin instance state from the traceflowPlugin struct of main.go: the
last rendered graph string. The client handle is represented by the explicit
Store argument of the handlers. -/
structure TraceflowPlugin where
  graph : String
deriving DecidableEq

/-- A directed edge with a label, as created by CreateEdge and SetLabel. -/
structure Edge where
  label : String
  src : String
  dst : String
deriving DecidableEq

/-- The graph the showGraphAction branch builds through the graphviz library. -/
structure Graph where
  nodes : List String
  edges : List Edge
deriving DecidableEq

/-- The graph built in the showGraphAction branch of main.go: a node for the
request name, a node named m, and one edge between them whose label is set
to e. -/
def buildGraph (name : String) : Graph :=
  { nodes := [name, "m"], edges := [{ label := "e", src := name, dst := "m" }] }

/-- Modelled from the spec: the external graphviz rendering of the graph to the
dot format, stored as the graph string of the plugin instance. -/
def renderDot (g : Graph) : String :=
  "digraph " ++ String.intercalate "; "
    (g.nodes ++ g.edges.map (fun e => e.src ++ " -> " ++ e.dst ++ " [label=" ++ e.label ++ "]"))

/-- An action request payload: a finite mapping from keys to string values.
String lookup fails, returning none, exactly when the key is absent, mirroring
the behaviour of the string accessor on the payload in the host library. -/
structure Payload where
  entries : List (String × String)

/-- The string accessor of the payload. -/
def Payload.string (p : Payload) (k : String) : Option String :=
  p.entries.lookup k

/-- The errors actionHandler can return to the host dispatcher. -/
inductive HandlerError
  | payloadError (msg : String)
  | storeError (e : StoreError)
  | unknownAction (plugin : String)
deriving DecidableEq

/-- The outcome of one actionHandler invocation: the returned value, the store
state after the call, the plugin state after the call, and the list of store
calls issued during the invocation. -/
structure HandlerResult where
  result : Except HandlerError Unit
  store : Store
  plugin : TraceflowPlugin
  calls : List StoreCall

/-- actionHandler from main.go. The addTf branch reads the five payload fields
in order, failing on the first absent key, then issues one create call and
returns its error, if any, directly. The showGraph branch reads the name,
issues a get call whose result is discarded, and stores the rendering of the
two-node graph. Any other action name returns an error without touching the
store. -/
def actionHandler (a : TraceflowPlugin) (s : Store) (p : Payload) : HandlerResult :=
  match p.string "action" with
  | none => ⟨.error (.payloadError "unable to get input at string"), s, a, []⟩
  | some actionName =>
    if actionName = addTfAction then
      match p.string "name" with
      | none => ⟨.error (.payloadError "unable to get name at string"), s, a, []⟩
      | some name =>
        match p.string "fromNamespace" with
        | none => ⟨.error (.payloadError "unable to get fromNamespace at string"), s, a, []⟩
        | some fromNamespace =>
          match p.string "fromPod" with
          | none => ⟨.error (.payloadError "unable to get fromPod at string"), s, a, []⟩
          | some fromPod =>
            match p.string "toNamespace" with
            | none => ⟨.error (.payloadError "unable to get toNamespace at string"), s, a, []⟩
            | some toNamespace =>
              match p.string "toPod" with
              | none => ⟨.error (.payloadError "unable to get toPod at string"), s, a, []⟩
              | some toPod =>
                let tf : Traceflow :=
                  { name := name, srcNamespace := fromNamespace, srcPod := fromPod,
                    dstNamespace := toNamespace, dstPod := toPod,
                    dstService := "", roundID := "", packet := {}, status := {} }
                let cr := s.create tf
                ⟨match cr.1 with
                  | .error e => .error (.storeError e)
                  | .ok _ => .ok (), cr.2, a, [.create tf]⟩
    else if actionName = showGraphAction then
      match p.string "name" with
      | none => ⟨.error (.payloadError "unable to get name at string"), s, a, []⟩
      | some name =>
        ⟨.ok (), s, { a with graph := renderDot (buildGraph name) }, [.get name]⟩
    else
      ⟨.error (.unknownAction pluginName), s, a, []⟩

/-- One cell of a display row: a plain text component or a link component with
a title, a text and a reference target, as built by NewText and NewLink. -/
inductive CellComponent
  | text (s : String)
  | link (title : String) (txt : String) (ref : String)
deriving DecidableEq

/-- A display row of the trace table, one cell per column of the const block. -/
structure TableRow where
  trace : CellComponent
  srcNamespace : CellComponent
  srcPod : CellComponent
  dstNamespace : CellComponent
  dstPod : CellComponent
  crd : CellComponent
deriving DecidableEq

/-- The fixed base path of the detail link built in getTfRows. -/
def crdBasePath : String :=
  "/cluster-overview/custom-resources/traceflows.antrea.tanzu.vmware.com"

/-- The display row getTfRows builds for one Traceflow entity. -/
def tfRow (tf : Traceflow) : TableRow :=
  { trace := .text tf.name,
    srcNamespace := .text tf.srcNamespace,
    srcPod := .text tf.srcPod,
    dstNamespace := .text tf.dstNamespace,
    dstPod := .text tf.dstPod,
    crd := .link tf.name tf.name
      ("/cluster-overview/custom-resources/traceflows.antrea.tanzu.vmware.com/" ++ tf.name) }

/-- The outcome of code that may call log.Fatalf: either a value, or immediate
termination of the whole process. -/
inductive ProcessOutcome (α : Type)
  | ok (a : α)
  | fatalExit
deriving DecidableEq

/-- getTfRows from main.go: lists all Traceflow resources and maps each to a
display row. On a list failure the source calls log.Fatalf, terminating the
process, modelled as the fatalExit outcome. -/
def getTfRows (s : Store) : ProcessOutcome (List TableRow) :=
  match s.list with
  | .error _ => .fatalExit
  | .ok tfs => .ok (tfs.map tfRow)

/-- One text or hidden field of a form, as built by NewFormFieldText and
NewFormFieldHidden. -/
structure FormField where
  kind : String
  name : String
  value : String
deriving DecidableEq

/-- An action attached to a card: a name, a title and a form. -/
structure CardAction where
  name : String
  title : String
  form : List FormField
deriving DecidableEq

/-- The body of a card: a text component or a graphviz component. -/
inductive CardBody
  | text (s : String)
  | graphviz (dot : String)
deriving DecidableEq

/-- A card of the layout section. -/
structure Card where
  title : String
  body : CardBody
  actions : List CardAction
deriving DecidableEq

/-- The submission form of the Start New Trace action in traceflowHandler. -/
def addTfForm : List FormField :=
  [⟨"text", "name", ""⟩, ⟨"text", "fromNamespace", ""⟩, ⟨"text", "fromPod", ""⟩,
   ⟨"text", "toNamespace", ""⟩, ⟨"text", "toPod", ""⟩, ⟨"hidden", "action", addTfAction⟩]

/-- The form of the Generate Trace Graph action in traceflowHandler. -/
def graphForm : List FormField :=
  [⟨"text", "name", ""⟩, ⟨"hidden", "action", showGraphAction⟩]

/-- The form card built at the top of traceflowHandler, with its two actions. -/
def formCard : Card :=
  { title := "Antrea Traceflow", body := .text "",
    actions := [⟨"Start New Trace", "Start New Trace", addTfForm⟩,
                ⟨"Generate Trace Graph", "Generate Trace Graph", graphForm⟩] }

/-- The graph card built by traceflowHandler: its body is a graphviz component
when the stored graph string is nonempty and an empty text otherwise. -/
def graphCardFor (g : String) : Card :=
  { title := "Antrea Traceflow Graph",
    body := if g = "" then .text "" else .graphviz g,
    actions := [] }

/-- The column list of the trace table. -/
def tfCols : List String :=
  [tfNameCol, srcNamespaceCol, srcPodCol, dstNamespaceCol, dstPodCol, crdCol]

/-- The display table of traceflowHandler. -/
structure Table where
  title : String
  cols : List String
  rows : List TableRow
deriving DecidableEq

/-- The content response traceflowHandler returns: the title, the cards of the
layout section in order, and the trace table. -/
structure ContentResponse where
  title : String
  layoutCards : List Card
  table : Table
deriving DecidableEq

/-- traceflowHandler from main.go: always adds the form card; adds the graph
card exactly when the stored graph string is nonempty; then renders the trace
table from getTfRows, whose fatal exit on list failure propagates. -/
def traceflowHandler (a : TraceflowPlugin) (s : Store) : ProcessOutcome ContentResponse :=
  match getTfRows s with
  | .fatalExit => .fatalExit
  | .ok rows =>
    .ok { title := "Antrea Traceflow",
          layoutCards :=
            if a.graph = "" then [formCard] else [formCard, graphCardFor a.graph],
          table := { title := "Trace List", cols := tfCols, rows := rows } }

/-- A concrete submit payload whose name field is present but empty. -/
def emptyNamePayload : Payload :=
  ⟨[("action", addTfAction), ("name", ""), ("fromNamespace", "default"),
    ("fromPod", "pod-a"), ("toNamespace", "default"), ("toPod", "pod-b")]⟩

/-- A concrete well formed submit payload. -/
def fullPayload : Payload :=
  ⟨[("action", addTfAction), ("name", "t1"), ("fromNamespace", "default"),
    ("fromPod", "pod-a"), ("toNamespace", "default"), ("toPod", "pod-b")]⟩

/-- A concrete show graph payload. -/
def graphPayload : Payload :=
  ⟨[("action", showGraphAction), ("name", "t9")]⟩

/-- C1 counterexample: submitting with an empty name field does not return any
error and does issue a create call against the store, refuting the claim that
an empty required field yields a ValidationError with no create call. -/
theorem C1_counterexample :
    (actionHandler ⟨""⟩ ⟨[], true⟩ emptyNamePayload).result = .ok () ∧
    (actionHandler ⟨""⟩ ⟨[], true⟩ emptyNamePayload).calls =
      [.create ⟨"", "default", "pod-a", "default", "pod-b", "", "", {}, {}⟩] :=
  ⟨rfl, rfl⟩

/-- C1 amended: the addTf branch performs no emptiness validation. Whenever all
five field lookups succeed, even with one or more of the values empty, the
create call is issued against the store with exactly the submitted values and
no payload validation error is returned. -/
theorem C1_no_empty_validation (a : TraceflowPlugin) (s : Store) (p : Payload)
    (n fns fp tns tp : String)
    (hact : p.string "action" = some addTfAction)
    (hn : p.string "name" = some n)
    (hfns : p.string "fromNamespace" = some fns)
    (hfp : p.string "fromPod" = some fp)
    (htns : p.string "toNamespace" = some tns)
    (htp : p.string "toPod" = some tp)
    (_hempty : n = "" ∨ fns = "" ∨ fp = "" ∨ tns = "" ∨ tp = "") :
    (actionHandler a s p).calls = [.create ⟨n, fns, fp, tns, tp, "", "", {}, {}⟩] ∧
    ∀ m, (actionHandler a s p).result ≠ .error (.payloadError m) := by
  simp only [actionHandler, hact, hn, hfns, hfp, htns, htp, if_pos rfl]
  rcases hcr : (s.create ⟨n, fns, fp, tns, tp, "", "", {}, {}⟩).1 with e | v <;>
    simp [hcr]

/-- C1 witness: the amended statement at the concrete empty-name payload. -/
theorem C1_witness :
    (actionHandler ⟨""⟩ ⟨[], true⟩ emptyNamePayload).calls =
      [.create ⟨"", "default", "pod-a", "default", "pod-b", "", "", {}, {}⟩] ∧
    ∀ m, (actionHandler ⟨""⟩ ⟨[], true⟩ emptyNamePayload).result ≠ .error (.payloadError m) :=
  C1_no_empty_validation ⟨""⟩ ⟨[], true⟩ emptyNamePayload
    "" "default" "pod-a" "default" "pod-b" rfl rfl rfl rfl rfl rfl (.inl rfl)

/-- C2: when the list call fails because the store is unreachable, getTfRows
does not return a TransportError to its caller: the source calls log.Fatalf,
which terminates the process, modelled here as the fatalExit outcome. -/
theorem C2_list_failure_fatal : getTfRows ⟨[], false⟩ = .fatalExit := rfl

/-- C5: the resource passed to the create call carries exactly the five
submitted values in its name, source namespace, source pod, destination
namespace and destination pod fields, and every other field of the resource
equals its zero or default value. -/
theorem C5_create_resource_fields (a : TraceflowPlugin) (s : Store) (p : Payload)
    (n fns fp tns tp : String)
    (hact : p.string "action" = some addTfAction)
    (hn : p.string "name" = some n)
    (hfns : p.string "fromNamespace" = some fns)
    (hfp : p.string "fromPod" = some fp)
    (htns : p.string "toNamespace" = some tns)
    (htp : p.string "toPod" = some tp) :
    ∃ tf : Traceflow, (actionHandler a s p).calls = [.create tf] ∧
      tf.name = n ∧ tf.srcNamespace = fns ∧ tf.srcPod = fp ∧
      tf.dstNamespace = tns ∧ tf.dstPod = tp ∧
      tf.dstService = "" ∧ tf.roundID = "" ∧ tf.packet = {} ∧ tf.status = {} := by
  refine ⟨⟨n, fns, fp, tns, tp, "", "", {}, {}⟩, ?_,
    rfl, rfl, rfl, rfl, rfl, rfl, rfl, rfl, rfl⟩
  simp [actionHandler, hact, hn, hfns, hfp, htns, htp]

/-- C5 witness: the concrete well formed payload yields a create call whose
resource has the five submitted values and default remaining fields. -/
theorem C5_witness :
    ∃ tf : Traceflow, (actionHandler ⟨""⟩ ⟨[], true⟩ fullPayload).calls = [.create tf] ∧
      tf.name = "t1" ∧ tf.srcNamespace = "default" ∧ tf.srcPod = "pod-a" ∧
      tf.dstNamespace = "default" ∧ tf.dstPod = "pod-b" ∧
      tf.dstService = "" ∧ tf.roundID = "" ∧ tf.packet = {} ∧ tf.status = {} :=
  C5_create_resource_fields ⟨""⟩ ⟨[], true⟩ fullPayload
    "t1" "default" "pod-a" "default" "pod-b" rfl rfl rfl rfl rfl rfl

/-- C4: a submit that reaches the store issues exactly one create call, with no
retry, and the first store outcome is returned directly: an unreachable store
yields TransportError, an existing name yields ConflictError, and on success
the handler returns ok while the create call result carries the created
resource and hence the identity of the request. -/
theorem C4_submit_outcomes (a : TraceflowPlugin) (s : Store) (p : Payload)
    (n fns fp tns tp : String)
    (hact : p.string "action" = some addTfAction)
    (hn : p.string "name" = some n)
    (hfns : p.string "fromNamespace" = some fns)
    (hfp : p.string "fromPod" = some fp)
    (htns : p.string "toNamespace" = some tns)
    (htp : p.string "toPod" = some tp) :
    (actionHandler a s p).calls =
      [.create ⟨n, fns, fp, tns, tp, "", "", {}, {}⟩] ∧
    (s.reachable = false →
      (actionHandler a s p).result = .error (.storeError .transport)) ∧
    (s.reachable = true → (∃ t ∈ s.items, t.name = n) →
      (actionHandler a s p).result = .error (.storeError .conflict)) ∧
    (s.reachable = true → (∀ t ∈ s.items, t.name ≠ n) →
      (actionHandler a s p).result = .ok () ∧
      (s.create ⟨n, fns, fp, tns, tp, "", "", {}, {}⟩).1 =
        .ok ⟨n, fns, fp, tns, tp, "", "", {}, {}⟩) := by
  refine ⟨?_, ?_, ?_, ?_⟩
  · simp [actionHandler, hact, hn, hfns, hfp, htns, htp]
  · intro hr
    simp [actionHandler, hact, hn, hfns, hfp, htns, htp, Store.create, hr]
  · intro hr hex
    have hany : s.items.any (fun t => t.name == n) = true := by
      rcases hex with ⟨t, ht, hname⟩
      exact List.any_eq_true.mpr ⟨t, ht, by simp [hname]⟩
    simp [actionHandler, hact, hn, hfns, hfp, htns, htp, Store.create, hr, hany]
  · intro hr hall
    have hany : s.items.any (fun t => t.name == n) = false := by
      simp only [List.any_eq_false]
      intro t ht
      simpa using hall t ht
    simp [actionHandler, hact, hn, hfns, hfp, htns, htp, Store.create, hr, hany]

/-- C4 witness: the concrete well formed payload against an empty reachable
store, instantiating all four branches of the statement. -/
theorem C4_witness :
    (actionHandler ⟨""⟩ ⟨[], true⟩ fullPayload).calls =
      [.create ⟨"t1", "default", "pod-a", "default", "pod-b", "", "", {}, {}⟩] ∧
    ((⟨[], true⟩ : Store).reachable = false →
      (actionHandler ⟨""⟩ ⟨[], true⟩ fullPayload).result = .error (.storeError .transport)) ∧
    ((⟨[], true⟩ : Store).reachable = true →
      (∃ t ∈ (⟨[], true⟩ : Store).items, t.name = "t1") →
      (actionHandler ⟨""⟩ ⟨[], true⟩ fullPayload).result = .error (.storeError .conflict)) ∧
    ((⟨[], true⟩ : Store).reachable = true →
      (∀ t ∈ (⟨[], true⟩ : Store).items, t.name ≠ "t1") →
      (actionHandler ⟨""⟩ ⟨[], true⟩ fullPayload).result = .ok () ∧
      (Store.create ⟨[], true⟩
          ⟨"t1", "default", "pod-a", "default", "pod-b", "", "", {}, {}⟩).1 =
        .ok ⟨"t1", "default", "pod-a", "default", "pod-b", "", "", {}, {}⟩) :=
  C4_submit_outcomes ⟨""⟩ ⟨[], true⟩ fullPayload
    "t1" "default" "pod-a" "default" "pod-b" rfl rfl rfl rfl rfl rfl

/-- A concrete submit payload missing the name key. -/
def missingNamePayload : Payload := ⟨[("action", addTfAction)]⟩

/-- A concrete payload with an unknown action name. -/
def bogusPayload : Payload := ⟨[("action", "bogus")]⟩

/-- C9: an addTf request whose payload is missing any of the five keys returns
a payload error before issuing the create call, issuing no store call at all,
so the store state is unchanged. -/
theorem C9_missing_key_no_create (a : TraceflowPlugin) (s : Store) (p : Payload)
    (hact : p.string "action" = some addTfAction)
    (hmiss : p.string "name" = none ∨ p.string "fromNamespace" = none ∨
      p.string "fromPod" = none ∨ p.string "toNamespace" = none ∨
      p.string "toPod" = none) :
    (∃ m, (actionHandler a s p).result = .error (.payloadError m)) ∧
    (actionHandler a s p).calls = [] ∧ (actionHandler a s p).store = s := by
  rcases h1 : p.string "name" with _ | v1
  · simp [actionHandler, hact, h1]
  rcases h2 : p.string "fromNamespace" with _ | v2
  · simp [actionHandler, hact, h1, h2]
  rcases h3 : p.string "fromPod" with _ | v3
  · simp [actionHandler, hact, h1, h2, h3]
  rcases h4 : p.string "toNamespace" with _ | v4
  · simp [actionHandler, hact, h1, h2, h3, h4]
  rcases h5 : p.string "toPod" with _ | v5
  · simp [actionHandler, hact, h1, h2, h3, h4, h5]
  · simp [h1, h2, h3, h4, h5] at hmiss

/-- C9 witness: the concrete payload missing the name key yields a payload
error, no store calls, and an unchanged store. -/
theorem C9_witness :
    (∃ m, (actionHandler ⟨""⟩ ⟨[], true⟩ missingNamePayload).result =
      .error (.payloadError m)) ∧
    (actionHandler ⟨""⟩ ⟨[], true⟩ missingNamePayload).calls = [] ∧
    (actionHandler ⟨""⟩ ⟨[], true⟩ missingNamePayload).store = ⟨[], true⟩ :=
  C9_missing_key_no_create ⟨""⟩ ⟨[], true⟩ missingNamePayload rfl (.inl rfl)

/-- C8: an action request whose action name is neither the addTf nor the
showGraph identifier returns an error and issues no store call, leaving the
store unchanged. -/
theorem C8_unknown_action (a : TraceflowPlugin) (s : Store) (p : Payload)
    (act : String)
    (hact : p.string "action" = some act)
    (h1 : act ≠ addTfAction) (h2 : act ≠ showGraphAction) :
    (actionHandler a s p).result = .error (.unknownAction pluginName) ∧
    (actionHandler a s p).calls = [] ∧ (actionHandler a s p).store = s := by
  simp [actionHandler, hact, h1, h2]

/-- C8 witness: the concrete unknown action payload yields the unknown action
error, no store calls, and an unchanged store. -/
theorem C8_witness :
    (actionHandler ⟨""⟩ ⟨[], true⟩ bogusPayload).result =
      .error (.unknownAction pluginName) ∧
    (actionHandler ⟨""⟩ ⟨[], true⟩ bogusPayload).calls = [] ∧
    (actionHandler ⟨""⟩ ⟨[], true⟩ bogusPayload).store = ⟨[], true⟩ :=
  C8_unknown_action ⟨""⟩ ⟨[], true⟩ bogusPayload "bogus" rfl (by decide) (by decide)

/-- C3: the showGraph branch issues one get call for the requested name, and
the get call of the external store returns NotFoundError to its caller for a
name that was never submitted and TransportError on communication failure. -/
theorem C3_get_outcomes (a : TraceflowPlugin) (s : Store) (p : Payload) (n : String)
    (hact : p.string "action" = some showGraphAction)
    (hn : p.string "name" = some n) :
    (actionHandler a s p).calls = [.get n] ∧
    (s.reachable = true → (∀ t ∈ s.items, t.name ≠ n) →
      s.get n = .error .notFound) ∧
    (s.reachable = false → s.get n = .error .transport) := by
  have hne : showGraphAction ≠ addTfAction := by decide
  refine ⟨?_, ?_, ?_⟩
  · simp [actionHandler, hact, hn, hne]
  · intro hr hall
    have hfind : s.items.find? (fun t => t.name == n) = none := by
      simp only [List.find?_eq_none]
      intro t ht
      simpa using hall t ht
    simp [Store.get, hr, hfind]
  · intro hr
    simp [Store.get, hr]

/-- C3 witness: the concrete show graph payload against an empty reachable
store, instantiating all three branches of the statement. -/
theorem C3_witness :
    (actionHandler ⟨""⟩ ⟨[], true⟩ graphPayload).calls = [.get "t9"] ∧
    ((⟨[], true⟩ : Store).reachable = true →
      (∀ t ∈ (⟨[], true⟩ : Store).items, t.name ≠ "t9") →
      Store.get ⟨[], true⟩ "t9" = .error .notFound) ∧
    ((⟨[], true⟩ : Store).reachable = false →
      Store.get ⟨[], true⟩ "t9" = .error .transport) :=
  C3_get_outcomes ⟨""⟩ ⟨[], true⟩ graphPayload "t9" rfl rfl

/-- C7: the graph built and stored by the showGraph branch consists of exactly
two nodes, one labeled with the request name and one labeled m, connected by
exactly one labeled edge, and its rendering is stored as the plugin graph. -/
theorem C7_two_node_graph (a : TraceflowPlugin) (s : Store) (p : Payload) (n : String)
    (hact : p.string "action" = some showGraphAction)
    (hn : p.string "name" = some n) :
    (actionHandler a s p).plugin.graph = renderDot (buildGraph n) ∧
    (buildGraph n).nodes = [n, "m"] ∧
    (buildGraph n).edges = [⟨"e", n, "m"⟩] ∧
    (buildGraph n).nodes.length = 2 ∧
    (buildGraph n).edges.length = 1 := by
  have hne : showGraphAction ≠ addTfAction := by decide
  refine ⟨?_, rfl, rfl, rfl, rfl⟩
  simp [actionHandler, hact, hn, hne]

/-- C7 witness: the concrete show graph payload stores the rendering of the
two node graph for the name t9. -/
theorem C7_witness :
    (actionHandler ⟨""⟩ ⟨[], true⟩ graphPayload).plugin.graph =
      renderDot (buildGraph "t9") ∧
    (buildGraph "t9").nodes = ["t9", "m"] ∧
    (buildGraph "t9").edges = [⟨"e", "t9", "m"⟩] ∧
    (buildGraph "t9").nodes.length = 2 ∧
    (buildGraph "t9").edges.length = 1 :=
  C7_two_node_graph ⟨""⟩ ⟨[], true⟩ graphPayload "t9" rfl rfl

/-- C6: on a reachable store, getTfRows maps every listed entity to its display
row, and the row for an entity carries exactly the five entity fields as text
cells and a link cell whose title is the entity name and whose target is the
fixed base path, a slash, and the entity name. -/
theorem C6_rows_shape (s : Store) (hreach : s.reachable = true) :
    getTfRows s = .ok (s.items.map tfRow) ∧
    ∀ tf : Traceflow,
      tfRow tf = ⟨.text tf.name, .text tf.srcNamespace, .text tf.srcPod,
        .text tf.dstNamespace, .text tf.dstPod,
        .link tf.name tf.name (crdBasePath ++ "/" ++ tf.name)⟩ := by
  constructor
  · simp [getTfRows, Store.list, hreach]
  · intro tf
    rfl

/-- A sample Traceflow entity. -/
def sampleTf : Traceflow :=
  ⟨"t1", "default", "pod-a", "default", "pod-b", "", "", {}, {}⟩

/-- C6 witness: the row shape statement at a concrete reachable store holding
one sample entity. -/
theorem C6_witness :
    getTfRows ⟨[sampleTf], true⟩ =
      .ok ((⟨[sampleTf], true⟩ : Store).items.map tfRow) ∧
    ∀ tf : Traceflow,
      tfRow tf = ⟨.text tf.name, .text tf.srcNamespace, .text tf.srcPod,
        .text tf.dstNamespace, .text tf.dstPod,
        .link tf.name tf.name (crdBasePath ++ "/" ++ tf.name)⟩ :=
  C6_rows_shape ⟨[sampleTf], true⟩ rfl

/-- The graph card differs from the form card: their titles differ. -/
theorem graphCardFor_ne_formCard (g : String) : graphCardFor g ≠ formCard := by
  intro h
  have ht : ("Antrea Traceflow Graph" : String) = "Antrea Traceflow" :=
    congrArg Card.title h
  exact absurd ht (by decide)

/-- C10: on a reachable store, traceflowHandler renders a response whose layout
contains the graph card exactly when the stored graph string is nonempty, and
which contains only the form card, besides the trace table, when the stored
graph string is empty. -/
theorem C10_graph_card_iff (a : TraceflowPlugin) (s : Store)
    (hreach : s.reachable = true) :
    ∃ resp : ContentResponse, traceflowHandler a s = .ok resp ∧
      (graphCardFor a.graph ∈ resp.layoutCards ↔ a.graph ≠ "") ∧
      (a.graph = "" → resp.layoutCards = [formCard]) ∧
      resp.table = ⟨"Trace List", tfCols, s.items.map tfRow⟩ := by
  have hrows : getTfRows s = .ok (s.items.map tfRow) := by
    simp [getTfRows, Store.list, hreach]
  by_cases hg : a.graph = ""
  · refine ⟨⟨"Antrea Traceflow", [formCard],
      ⟨"Trace List", tfCols, s.items.map tfRow⟩⟩, ?_, ?_, fun _ => rfl, rfl⟩
    · simp [traceflowHandler, hrows, hg]
    · rw [hg]
      simp [graphCardFor_ne_formCard ""]
  · refine ⟨⟨"Antrea Traceflow", [formCard, graphCardFor a.graph],
      ⟨"Trace List", tfCols, s.items.map tfRow⟩⟩, ?_, ?_, fun h => absurd h hg, rfl⟩
    · simp [traceflowHandler, hrows, hg]
    · simp [hg]

/-- C10 witness: a plugin instance with an empty stored graph against an empty
reachable store. -/
theorem C10_witness :
    ∃ resp : ContentResponse, traceflowHandler ⟨""⟩ ⟨[], true⟩ = .ok resp ∧
      (graphCardFor (⟨""⟩ : TraceflowPlugin).graph ∈ resp.layoutCards ↔
        (⟨""⟩ : TraceflowPlugin).graph ≠ "") ∧
      ((⟨""⟩ : TraceflowPlugin).graph = "" → resp.layoutCards = [formCard]) ∧
      resp.table = ⟨"Trace List", tfCols, (⟨[], true⟩ : Store).items.map tfRow⟩ :=
  C10_graph_card_iff ⟨""⟩ ⟨[], true⟩ rfl

end OctantPlugin
